import Mathlib

/-!
Verification of the StoryAgent streaming tool-call dispatcher.

Shallow embedding of `demo/story_agent/app.py`: the per-frame session loop
`story_agent`, the slot router `update_component`, and the output-clearing
handlers (`clean_outputs`, `clean_outputs_start`, `clear_session`).

Python strings are modelled as Lean `String` (a wrapper around `List Char`);
Python list assignment `l[i] = v` is modelled by `pySet`, with Python's
negative-index wrap-around and `IndexError` on out-of-range indices;
Python `int(s)` is modelled by `pyInt` (strip whitespace, optional sign,
decimal digits, `ValueError` as `none` otherwise); Python `s.strip()` is
modelled by `pyStrip` and `s.split(sep)[0]` by `beforeUser`/`beforeFirst`.
Exceptions are modelled with `Except`: an `.error` result corresponds to an
uncaught Python exception propagating out of the enclosing code.
-/

set_option autoImplicit false

namespace StoryAgent

/-- Errors raised by the embedded Python fragments. -/
inductive PyErr where
  | indexError
  | valueError
deriving DecidableEq

/-- A Gradio output component's value: `none` models Python `None`
(an empty image slot), `some s` models a populated value / update payload. -/
abbrev Comp := Option String

/-- Python list assignment `l[i] = v`: negative indices wrap around from the
end; an index out of range raises `IndexError`. -/
def pySet (l : List Comp) (i : Int) (v : Comp) : Except PyErr (List Comp) :=
  let n : Int := l.length
  let j : Int := if i < 0 then i + n else i
  if 0 ≤ j ∧ j < n then .ok (l.set j.toNat v) else .error .indexError

/-- Digits accumulator for `pyInt`. -/
def parseDigitsAux (acc : Nat) : List Char → Option Nat
  | [] => some acc
  | c :: rest =>
      if c.isDigit then parseDigitsAux (acc * 10 + (c.toNat - 48)) rest
      else none

/-- A non-empty all-decimal-digit run, as a `Nat`. -/
def parseDigits : List Char → Option Nat
  | [] => none
  | l => parseDigitsAux 0 l

/-- Remove leading and trailing whitespace characters from a character list
(the model of Python `str.strip()`). -/
def stripChars (l : List Char) : List Char :=
  ((l.dropWhile Char.isWhitespace).reverse.dropWhile Char.isWhitespace).reverse

/-- Python `str.strip()`. -/
def pyStrip (s : String) : String := ⟨stripChars s.data⟩

/-- Python `int(s)`: surrounding whitespace allowed, optional single sign,
then a non-empty digit run; anything else raises `ValueError` (= `none`). -/
def pyInt (s : String) : Option Int :=
  match stripChars s.data with
  | '+' :: rest => (parseDigits rest).map (fun n => (n : Int))
  | '-' :: rest => (parseDigits rest).map (fun n => -(n : Int))
  | rest => (parseDigits rest).map (fun n => (n : Int))

/-- Test whether `pat` is an initial segment of `l`. -/
def startsWith : List Char → List Char → Bool
  | [], _ => true
  | _ :: _, [] => false
  | p :: ps, c :: cs => p == c && startsWith ps cs

/-- True iff `pat` occurs contiguously somewhere in `l`. -/
def occursIn (pat : List Char) : List Char → Bool
  | [] => startsWith pat []
  | c :: rest => startsWith pat (c :: rest) || occursIn pat rest

/-- The text strictly before the first occurrence of `sep` (the whole list
when `sep` does not occur): the model of Python `s.split(sep)[0]`. -/
def beforeFirst (sep : List Char) : List Char → List Char
  | [] => []
  | c :: rest =>
      if startsWith sep (c :: rest) then []
      else c :: beforeFirst sep rest

/-- The literal marker cut off from every frame's LLM text (app.py line 261). -/
def userMarker : String := "<|user|>"

/-- Model of the split at the user marker in app.py line 261, which keeps
only the text before the first occurrence. -/
def beforeUser (s : String) : String := ⟨beforeFirst userMarker.data s.data⟩

/-- The shape of `exec_result['result']` consumed by `update_component`,
tagged by its `name` field. `other` covers any name that matches none of the
three `if`/`elif` branches (the function then falls through doing nothing). -/
inductive ExecResult where
  | printStory (payload : String)
  | showExample (results : List String)
  | imageGen (idx : String) (imgResult : String) (textResult : String)
  | other (name : String)
deriving DecidableEq

/-- The `show_image_example` branch: `for i, r in enumerate(results):
output_component[i + 1] = gr.Image.update(**r)`. -/
def updateExamples : List String → Nat → List Comp → Except PyErr (List Comp)
  | [], _, oc => .ok oc
  | r :: rs, i, oc => do
      let oc1 ← pySet oc ((i : Int) + 1) (some r)
      updateExamples rs (i + 1) oc1

/-- The router `update_component` from app.py lines 239-252.  `oc` is the
`output_component` list: position 0 is the story-content textbox, positions
`1 .. max_scene` the image slots, positions `max_scene+1 .. 2*max_scene`
the caption textboxes.  For `image_generation`, `idx = int(...)` may raise
`ValueError`, and the two list assignments may raise `IndexError`; both are
uncaught in the source. -/
def update_component (max_scene : Nat) (er : ExecResult) (oc : List Comp) :
    Except PyErr (List Comp) :=
  match er with
  | .printStory payload => pySet oc 0 (some payload)
  | .showExample results => updateExamples results 0 oc
  | .imageGen idxStr img txt =>
      match pyInt idxStr with
      | none => .error .valueError
      | some idx => do
          let oc1 ← pySet oc (idx + 1) (some img)
          pySet oc1 (idx + (max_scene : Int) + 1) (some txt)
  | .other _ => .ok oc

/-- One frame yielded by `agent.stream_run`: the loop reads
`frame_is_final` (and then never uses it), `llm_text` and `exec_result`
(`none` models the default `''` / an empty exec result). -/
structure Frame where
  frame_is_final : Option Bool
  llm_text : String
  exec_result : Option ExecResult
deriving DecidableEq

/-- A chat pair as stored in the Gradio `ChatBot` value: user side, agent
side (`none` = Python `None`). -/
abbrev ChatPair := Option String × Option String

/-- One render snapshot (`yield chatbot, *output_component`). -/
structure Snapshot where
  chat : List ChatPair
  comps : List Comp
deriving DecidableEq

/-- Python assignment to the last list position, as in the source's
`chatbot[-1] = v` (every call site appends before the first such
assignment, so the list is never empty there). -/
def setLast (l : List ChatPair) (v : ChatPair) : List ChatPair :=
  if l.isEmpty then l else l.dropLast ++ [v]

/-- The response accumulation of app.py line 269: the new response is the
old response, a newline, and the frame text, concatenated. -/
def appendResponse (resp frame_text : String) : String :=
  resp ++ "\n" ++ frame_text

/-- The per-frame body of the loop in `story_agent` (app.py lines 257-268):
computes `llm_result` (split at the first `<|user|>` and stripped), then
either routes a non-empty `exec_result` through `update_component` with
frame text a single space, or uses `llm_result` itself as the frame text.
Returns the updated components and the frame text. -/
def processFrame (max_scene : Nat) (f : Frame) (oc : List Comp) :
    Except PyErr (List Comp × String) :=
  let llm_result := pyStrip (beforeUser f.llm_text)
  match f.exec_result with
  | some er =>
      match update_component max_scene er oc with
      | .error e => .error e
      | .ok oc1 => .ok (oc1, " ")
  | none => .ok (oc, llm_result)

/-- The `for frame in agent.stream_run(...)` loop (app.py lines 256-272):
processes each frame, accumulates `response`, rewrites the last chat pair,
and yields one snapshot per frame.  Returns the emitted snapshots together
with the final chat list, components and response. -/
def runFrames (max_scene : Nat) (ui : String) :
    List Frame → List ChatPair → List Comp → String →
    Except PyErr (List Snapshot × List ChatPair × List Comp × String)
  | [], chat, oc, resp => .ok ([], chat, oc, resp)
  | f :: rest, chat, oc, resp =>
      match processFrame max_scene f oc with
      | .error e => .error e
      | .ok (oc1, frame_text) =>
          let resp1 := appendResponse resp frame_text
          let chat1 := setLast chat (some ui, some resp1)
          match runFrames max_scene ui rest chat1 oc1 resp1 with
          | .error e => .error e
          | .ok (snaps, chatF, ocF, respF) =>
              .ok (⟨chat1, oc1⟩ :: snaps, chatF, ocF, respF)

/-- The generator `story_agent` (app.py lines 217-277): appends the pending
user turn, yields the initial snapshot, runs the frame loop yielding one
snapshot per frame, then rewrites the last chat pair and yields one final
snapshot.  An `.error` result models an exception escaping the generator. -/
def story_agent (max_scene : Nat) (ui : String) (frames : List Frame)
    (chat0 : List ChatPair) (oc0 : List Comp) :
    Except PyErr (List Snapshot) :=
  let chat1 := chat0 ++ [(some ui, none)]
  match runFrames max_scene ui frames chat1 oc0 "" with
  | .error e => .error e
  | .ok (snaps, chatF, ocF, respF) =>
      .ok (⟨chat1, oc0⟩ :: (snaps ++ [⟨setLast chatF (some ui, some respF), ocF⟩]))

/-- The configured maximum scene count, app.py line 65. -/
def MAX_SCENE : Nat := 4

/-- The initial chatbot greeting (app.py line 18). -/
def PROMPT_START : String :=
  "你好！我是你的StoryAgent，很高兴为你提供服务。首先，我想了解你对想要创作的故事有什么大概的想法或者大纲？"

/-- The Gradio state touched by the clearing handlers: the input textbox,
the chatbot value, and the `output_component` vector
(`[story_content] ++ output_image ++ output_text`). -/
structure UIState where
  user_input : String
  chatbot : List ChatPair
  oc : List Comp
deriving DecidableEq

/-- The state of a freshly constructed UI: empty input, greeting in the
chatbot, empty story-content textbox, image slots `None`, caption
textboxes `''`. -/
def initialUIState (max_scene : Nat) : UIState :=
  { user_input := ""
    chatbot := [(none, some PROMPT_START)]
    oc := some "" :: (List.replicate max_scene none
            ++ List.replicate max_scene (some "")) }

/-- Applying `clean_outputs` (app.py lines 290-291) to its targets
`[user_input, chatbot, *output_image, *output_text]` (line 292): the input
box is cleared, the chatbot value set to `[]`, images to `None`, captions
to `''`.  `story_content` (position 0 of `oc`) is NOT a target. -/
def clean_outputs_apply (max_scene : Nat) (s : UIState) : UIState :=
  { user_input := ""
    chatbot := []
    oc := s.oc.take 1 ++ (List.replicate max_scene none
            ++ List.replicate max_scene (some "")) }

/-- Applying `clean_outputs_start` (app.py lines 288-289) to the same
targets: as `clean_outputs` but the chatbot is restored to the greeting.
This is what the clear-session button does to the outputs (lines 321-324);
`story_content` is again not a target. -/
def clean_outputs_start_apply (max_scene : Nat) (s : UIState) : UIState :=
  { user_input := ""
    chatbot := [(none, some PROMPT_START)]
    oc := s.oc.take 1 ++ (List.replicate max_scene none
            ++ List.replicate max_scene (some "")) }

/-- The fresh `output_component` vector for the configured `MAX_SCENE = 4`:
empty story-content textbox, four empty image slots, four empty captions. -/
def demoOC : List Comp :=
  some "" :: (List.replicate 4 none ++ List.replicate 4 (some ""))

/-- The agent text of the last chat pair of the last snapshot of a
completed run (the final visible agent message). -/
def lastAgentText (r : Except PyErr (List Snapshot)) : Option String :=
  match r with
  | .ok snaps => snaps.getLast?.bind fun sn => sn.chat.getLast?.bind fun p => p.2
  | .error _ => none

/-- The component vector of the last snapshot of a completed run. -/
def lastComps (r : Except PyErr (List Snapshot)) : Option (List Comp) :=
  match r with
  | .ok snaps => snaps.getLast?.map Snapshot.comps
  | .error _ => none

/-- A UI state mid-session: story content, the first image slot and the
first caption slot populated, one finished turn in the chatbot. -/
def populatedUI : UIState :=
  { user_input := ""
    chatbot := [(none, some PROMPT_START), (some "hi", some "\nok")]
    oc := some "story" :: ((some "IMG0" :: List.replicate 3 none)
            ++ (some "CAP0" :: List.replicate 3 (some ""))) }

/-- The three frames of the round-trip scenario: a narrative frame, a frame
whose `exec_result` is a completed `image_generation` call for scene 1, and
a closing narrative frame. -/
def c4frames : List Frame :=
  [⟨some false, "Scene text.", none⟩,
   ⟨some false, "", some (.imageGen "1" "IMG" "CAP")⟩,
   ⟨some true, "more text", none⟩]

theorem pySet_nat (l : List Comp) (i : Nat) (v : Comp) (h : i < l.length) :
    pySet l (i : Int) v = .ok (l.set i v) := by
  have h1 : ¬ ((i : Int) < 0) := by omega
  have h2 : (0 : Int) ≤ (i : Int) ∧ (i : Int) < (l.length : Int) := by omega
  simp [pySet, h1, h2]

theorem pySet_oob (l : List Comp) (i : Int) (v : Comp)
    (h : (l.length : Int) ≤ i) :
    pySet l i v = .error .indexError := by
  have h1 : ¬ (i < 0) := by omega
  have h2 : ¬ ((0 : Int) ≤ i ∧ i < (l.length : Int)) := by omega
  simp [pySet, h1, h2]

theorem update_component_imageGen_ok (ms : Nat) (s img txt : String) (i : Nat)
    (oc : List Comp) (hlen : oc.length = 2 * ms + 1)
    (hp : pyInt s = some (i : Int)) (hi : i < ms) :
    update_component ms (.imageGen s img txt) oc
      = .ok ((oc.set (i + 1) (some img)).set (i + ms + 1) (some txt)) := by
  have e1 : ((i : Int) + 1) = ((i + 1 : Nat) : Int) := by push_cast; ring
  have e2 : ((i : Int) + (ms : Int) + 1) = ((i + ms + 1 : Nat) : Int) := by
    push_cast; ring
  simp only [update_component, hp]
  rw [e1, pySet_nat _ _ _ (by omega)]
  show pySet _ _ _ = _
  rw [e2, pySet_nat _ _ _ (by simp only [List.length_set]; omega)]

theorem pySet_ok_int (l : List Comp) (i : Int) (v : Comp) (h0 : 0 ≤ i)
    (h : i < (l.length : Int)) :
    pySet l i v = .ok (l.set i.toNat v) := by
  have h1 : ¬ (i < 0) := by omega
  simp [pySet, h1, h0, h]

/-- C9: routing an `image_generation` result with in-range index `i` writes
exactly the image component at position `i + 1` and the caption component at
position `i + max_scene + 1`; every other component, including the
story-content slot at position 0, is unchanged. -/
theorem c9_image_generation_routing (ms : Nat) (s img txt : String) (i : Nat)
    (oc : List Comp) (hlen : oc.length = 2 * ms + 1)
    (hp : pyInt s = some (i : Int)) (hi : i < ms) :
    update_component ms (.imageGen s img txt) oc
        = .ok ((oc.set (i + 1) (some img)).set (i + ms + 1) (some txt)) ∧
    ((oc.set (i + 1) (some img)).set (i + ms + 1) (some txt))[i + 1]?
        = some (some img) ∧
    ((oc.set (i + 1) (some img)).set (i + ms + 1) (some txt))[i + ms + 1]?
        = some (some txt) ∧
    ∀ j : Nat, j ≠ i + 1 → j ≠ i + ms + 1 →
      ((oc.set (i + 1) (some img)).set (i + ms + 1) (some txt))[j]? = oc[j]? := by
  refine ⟨update_component_imageGen_ok ms s img txt i oc hlen hp hi, ?_, ?_, ?_⟩
  · rw [List.getElem?_set_ne (by omega), List.getElem?_set_self (by omega)]
  · rw [List.getElem?_set_self (by simp only [List.length_set]; omega)]
  · intro j hj1 hj2
    rw [List.getElem?_set_ne (by omega), List.getElem?_set_ne (by omega)]

theorem c9_image_generation_routing_witness :
    update_component 4 (.imageGen "2" "IMG" "CAP") demoOC
        = .ok ((demoOC.set 3 (some "IMG")).set 7 (some "CAP")) ∧
    ((demoOC.set 3 (some "IMG")).set 7 (some "CAP"))[0]? = demoOC[0]? := by
  have h := c9_image_generation_routing 4 "2" "IMG" "CAP" 2 demoOC (by rfl)
    (by rfl) (by decide)
  exact ⟨h.1, h.2.2.2 0 (by decide) (by decide)⟩

/-- C1 (amended): an `image_generation` update whose scene index parses to
`idx ≥ max_scene` is not a reported, non-fatal `SlotOutOfRange` rejection:
the caption assignment at `idx + max_scene + 1` is out of bounds, so
`update_component` raises an uncaught `IndexError`, and a turn whose frame
carries such an update aborts with that error instead of applying the rest
of the batch. -/
theorem c1_out_of_range_idx_raises (ms : Nat) (s img txt ui t : String)
    (fin : Option Bool) (idx : Int) (oc : List Comp) (chat : List ChatPair)
    (hlen : oc.length = 2 * ms + 1) (hp : pyInt s = some idx)
    (hi : (ms : Int) ≤ idx) :
    update_component ms (.imageGen s img txt) oc = .error .indexError ∧
    story_agent ms ui [⟨fin, t, some (.imageGen s img txt)⟩] chat oc
      = .error .indexError := by
  have hup : update_component ms (.imageGen s img txt) oc
      = .error .indexError := by
    simp only [update_component, hp]
    by_cases hc : idx + 1 < (oc.length : Int)
    · rw [pySet_ok_int _ _ _ (by omega) hc]
      show pySet _ _ _ = _
      apply pySet_oob
      simp only [List.length_set]
      omega
    · rw [pySet_oob _ _ _ (by omega)]
      rfl
  refine ⟨hup, ?_⟩
  simp only [story_agent, runFrames, processFrame, hup]

theorem c1_out_of_range_idx_raises_witness :
    update_component 4 (.imageGen "5" "I" "T") demoOC = .error .indexError ∧
    story_agent 4 "u" [⟨some true, "", some (.imageGen "5" "I" "T")⟩]
        [(none, some PROMPT_START)] demoOC = .error .indexError :=
  c1_out_of_range_idx_raises 4 "5" "I" "T" "u" "" (some true) 5 demoOC
    [(none, some PROMPT_START)] (by rfl) (by rfl) (by decide)

/-- C1 counterexample: at the concrete boundary index `idx = MAX_SCENE = 4`
the update is not rejected as a reported `SlotOutOfRange`; it raises an
uncaught `IndexError` (fatal to the batch), contradicting the claim. -/
theorem c1_counterexample :
    update_component MAX_SCENE (.imageGen "4" "I" "T") demoOC
      = .error .indexError := by rfl

/-- C2 (amended): frame-level failures are not converted into visible
diagnostic fragments. An exec result whose `name` matches no branch is
silently ignored (the frame still contributes the single-space fragment,
with no diagnostic text), and an exec result whose `idx` does not parse as
an integer raises an uncaught `ValueError` that propagates out of the
session loop, aborting the turn. -/
theorem c2_failures_not_diagnosed (ms : Nat) (nm s a b ui t1 t2 : String)
    (f1 f2 : Option Bool) (oc : List Comp) (chat : List ChatPair)
    (hp : pyInt s = none) :
    processFrame ms ⟨f1, t1, some (.other nm)⟩ oc = .ok (oc, " ") ∧
    update_component ms (.imageGen s a b) oc = .error .valueError ∧
    story_agent ms ui [⟨f2, t2, some (.imageGen s a b)⟩] chat oc
      = .error .valueError := by
  have hup : update_component ms (.imageGen s a b) oc = .error .valueError := by
    simp only [update_component, hp]
  refine ⟨rfl, hup, ?_⟩
  simp only [story_agent, runFrames, processFrame, hup]

theorem c2_failures_not_diagnosed_witness :
    processFrame 4 ⟨some false, "t", some (.other "foo")⟩ demoOC
      = .ok (demoOC, " ") ∧
    update_component 4 (.imageGen "abc" "I" "T") demoOC
      = .error .valueError ∧
    story_agent 4 "u" [⟨some false, "hi", some (.imageGen "abc" "I" "T")⟩]
        [(none, some PROMPT_START)] demoOC = .error .valueError :=
  c2_failures_not_diagnosed 4 "foo" "abc" "I" "T" "u" "t" "hi" (some false)
    (some false) demoOC [(none, some PROMPT_START)] (by rfl)

/-- C2 counterexample: a frame whose `image_generation` exec result carries
the malformed index `"abc"` makes the whole turn abort with an uncaught
`ValueError`; no diagnostic fragment is merged and the loop does not
proceed. -/
theorem c2_counterexample :
    story_agent MAX_SCENE "u"
        [⟨some false, "hi", some (.imageGen "abc" "I" "T")⟩,
         ⟨some true, "next frame", none⟩]
        [(none, some PROMPT_START)] demoOC = .error .valueError := by rfl

/-- C5: applying two `image_generation` updates for the same in-range scene
index with different image values leaves the image slot holding only the
second value (overwrite, no append), while two transcript accumulations
concatenate both fragments in arrival order. -/
theorem c5_overwrite_vs_transcript_append (ms : Nat)
    (s v1 t1 v2 t2 resp x y : String) (i : Nat) (oc : List Comp)
    (hlen : oc.length = 2 * ms + 1) (hp : pyInt s = some (i : Int))
    (hi : i < ms) (hv : v1 ≠ v2) :
    update_component ms (.imageGen s v1 t1) oc
        = .ok ((oc.set (i + 1) (some v1)).set (i + ms + 1) (some t1)) ∧
    update_component ms (.imageGen s v2 t2)
        ((oc.set (i + 1) (some v1)).set (i + ms + 1) (some t1))
        = .ok (((((oc.set (i + 1) (some v1)).set (i + ms + 1) (some t1)).set
            (i + 1) (some v2)).set (i + ms + 1) (some t2))) ∧
    (((((oc.set (i + 1) (some v1)).set (i + ms + 1) (some t1)).set
        (i + 1) (some v2)).set (i + ms + 1) (some t2)))[i + 1]?
        = some (some v2) ∧
    (((((oc.set (i + 1) (some v1)).set (i + ms + 1) (some t1)).set
        (i + 1) (some v2)).set (i + ms + 1) (some t2)))[i + 1]?
        ≠ some (some v1) ∧
    (appendResponse (appendResponse resp x) y).data
      = resp.data ++ '\n' :: (x.data ++ '\n' :: y.data) := by
  have hslot : (((((oc.set (i + 1) (some v1)).set (i + ms + 1) (some t1)).set
      (i + 1) (some v2)).set (i + ms + 1) (some t2)))[i + 1]?
      = some (some v2) := by
    rw [List.getElem?_set_ne (by omega),
      List.getElem?_set_self (by simp only [List.length_set]; omega)]
  refine ⟨update_component_imageGen_ok ms s v1 t1 i oc hlen hp hi,
    update_component_imageGen_ok ms s v2 t2 i _
      (by simp only [List.length_set]; exact hlen) hp hi,
    hslot, ?_, ?_⟩
  · rw [hslot]
    intro h
    exact hv (Option.some.inj (Option.some.inj h)).symm
  · simp [appendResponse]

theorem c5_overwrite_vs_transcript_append_witness :
    ((((demoOC.set 2 (some "A")).set 6 (some "CA")).set 2 (some "B")).set 6
        (some "CB"))[2]? = some (some "B") ∧
    (appendResponse (appendResponse "r" "x") "y").data
      = "r".data ++ '\n' :: ("x".data ++ '\n' :: "y".data) := by
  have h := c5_overwrite_vs_transcript_append 4 "1" "A" "CA" "B" "CB" "r"
    "x" "y" 1 demoOC (by rfl) (by rfl) (by decide) (by decide)
  exact ⟨h.2.2.1, h.2.2.2.2⟩

theorem clean_oc_story_slot (ms : Nat) (oc : List Comp) (h : 0 < oc.length) :
    (oc.take 1 ++ (List.replicate ms none ++ List.replicate ms (some "")))[0]?
      = oc[0]? := by
  rw [List.getElem?_append_left (by simp only [List.length_take]; omega)]
  exact List.getElem?_take_of_lt (by omega)

theorem clean_oc_image_slot (ms : Nat) (oc : List Comp) (h : 0 < oc.length)
    (i : Nat) (hi : i < ms) :
    (oc.take 1
      ++ (List.replicate ms none ++ List.replicate ms (some "")))[i + 1]?
      = some none := by
  have hl : (oc.take 1).length = 1 := by simp only [List.length_take]; omega
  rw [List.getElem?_append_right (by omega), hl, Nat.add_sub_cancel,
    List.getElem?_append_left (by simp only [List.length_replicate]; omega)]
  exact List.getElem?_replicate_of_lt hi

theorem clean_oc_caption_slot (ms : Nat) (oc : List Comp) (h : 0 < oc.length)
    (i : Nat) (hi : i < ms) :
    (oc.take 1
      ++ (List.replicate ms none ++ List.replicate ms (some "")))[i + ms + 1]?
      = some (some "") := by
  have hl : (oc.take 1).length = 1 := by simp only [List.length_take]; omega
  rw [List.getElem?_append_right (by omega), hl, Nat.add_sub_cancel,
    List.getElem?_append_right (by simp only [List.length_replicate]; omega)]
  simp only [List.length_replicate, Nat.add_sub_cancel]
  exact List.getElem?_replicate_of_lt hi

/-- C3 (amended): the clear-session action resets the input box, restores
the chatbot to its initial greeting and clears every image and caption slot
to its placeholder, but the story-content slot (position 0 of the output
vector) is not among the handler's targets: it keeps whatever value it had,
so the post-clear state is not that of a freshly constructed session
whenever story content was populated. -/
theorem c3_clear_keeps_story_content (ms : Nat) (s : UIState)
    (h : 0 < s.oc.length) :
    (clean_outputs_start_apply ms s).user_input = "" ∧
    (clean_outputs_start_apply ms s).chatbot = [(none, some PROMPT_START)] ∧
    (clean_outputs_start_apply ms s).oc[0]? = s.oc[0]? ∧
    (∀ i : Nat, i < ms →
      (clean_outputs_start_apply ms s).oc[i + 1]? = some none) ∧
    (∀ i : Nat, i < ms →
      (clean_outputs_start_apply ms s).oc[i + ms + 1]? = some (some "")) := by
  refine ⟨rfl, rfl, clean_oc_story_slot ms s.oc h, ?_, ?_⟩
  · intro i hi
    exact clean_oc_image_slot ms s.oc h i hi
  · intro i hi
    exact clean_oc_caption_slot ms s.oc h i hi

theorem c3_clear_keeps_story_content_witness :
    (clean_outputs_start_apply 4 populatedUI).oc[0]? = populatedUI.oc[0]? ∧
    (clean_outputs_start_apply 4 populatedUI).oc[1]? = some none := by
  have h := c3_clear_keeps_story_content 4 populatedUI (by decide)
  exact ⟨h.2.2.1, h.2.2.2.1 0 (by decide)⟩

/-- C3 counterexample: clearing a session whose story-content textbox holds
`"story"` leaves that slot holding `"story"`, not its initial placeholder
`""`: not every observable output returns to its initial value, and the
cleared state differs from a freshly constructed session. -/
theorem c3_counterexample :
    (clean_outputs_start_apply MAX_SCENE populatedUI).oc[0]?
        = some (some "story") ∧
    (initialUIState MAX_SCENE).oc[0]? = some (some "") ∧
    clean_outputs_start_apply MAX_SCENE populatedUI
      ≠ initialUIState MAX_SCENE := by
  refine ⟨rfl, rfl, ?_⟩
  decide

/-- C6 (amended): every new submission triggers the `clean_outputs`
handler, which clears the input box, resets the chatbot component value to
`[]` and clears every image and caption slot to its placeholder; only the
story-content slot keeps its value. The render state written during one
turn therefore does not persist unchanged into the next submission. -/
theorem c6_submit_clears_slots (ms : Nat) (s : UIState)
    (h : 0 < s.oc.length) :
    (clean_outputs_apply ms s).user_input = "" ∧
    (clean_outputs_apply ms s).chatbot = [] ∧
    (clean_outputs_apply ms s).oc[0]? = s.oc[0]? ∧
    (∀ i : Nat, i < ms → (clean_outputs_apply ms s).oc[i + 1]? = some none) ∧
    (∀ i : Nat, i < ms →
      (clean_outputs_apply ms s).oc[i + ms + 1]? = some (some "")) := by
  refine ⟨rfl, rfl, clean_oc_story_slot ms s.oc h, ?_, ?_⟩
  · intro i hi
    exact clean_oc_image_slot ms s.oc h i hi
  · intro i hi
    exact clean_oc_caption_slot ms s.oc h i hi

theorem c6_submit_clears_slots_witness :
    (clean_outputs_apply 4 populatedUI).chatbot = [] ∧
    (clean_outputs_apply 4 populatedUI).oc[1]? = some none := by
  have h := c6_submit_clears_slots 4 populatedUI (by decide)
  exact ⟨h.2.1, h.2.2.2.1 0 (by decide)⟩

/-- C6 counterexample: before a new submission the scene-0 image slot holds
a value and the chatbot holds history; the submission's `clean_outputs`
handler empties both, so submitting a new user input does clear previously
populated render state. -/
theorem c6_counterexample :
    populatedUI.oc[1]? = some (some "IMG0") ∧
    (clean_outputs_apply MAX_SCENE populatedUI).oc[1]? = some none ∧
    populatedUI.chatbot ≠ [] ∧
    (clean_outputs_apply MAX_SCENE populatedUI).chatbot = [] := by
  exact ⟨rfl, rfl, by decide, rfl⟩

theorem processFrame_flag_irrelevant (ms : Nat) (g : Frame → Option Bool)
    (f : Frame) (oc : List Comp) :
    processFrame ms { f with frame_is_final := g f } oc
      = processFrame ms f oc := by
  cases f
  rfl

theorem runFrames_flag_irrelevant (ms : Nat) (ui : String)
    (g : Frame → Option Bool) (frames : List Frame) :
    ∀ (chat : List ChatPair) (oc : List Comp) (resp : String),
      runFrames ms ui (frames.map fun f => { f with frame_is_final := g f })
          chat oc resp
        = runFrames ms ui frames chat oc resp := by
  induction frames with
  | nil =>
      intro chat oc resp
      rfl
  | cons f rest ih =>
      intro chat oc resp
      simp only [List.map_cons, runFrames, processFrame_flag_irrelevant, ih]

/-- C7 (amended): the session loop binds `frame_is_final` and never uses
it: the turn ends exactly when the frame source is exhausted, and
rewriting every frame's final-flag (for instance marking every frame
non-final) leaves the entire observable run unchanged. -/
theorem c7_is_final_ignored (ms : Nat) (ui : String)
    (g : Frame → Option Bool) (frames : List Frame) (chat : List ChatPair)
    (oc : List Comp) :
    story_agent ms ui (frames.map fun f => { f with frame_is_final := g f })
        chat oc
      = story_agent ms ui frames chat oc := by
  simp only [story_agent, runFrames_flag_irrelevant]

/-- C7 counterexample: a turn whose only frame has `is_final = false` still
ends normally: the loop completes and emits its final snapshot even though
the source never delivered a frame with `is_final = true`. -/
theorem c7_counterexample :
    story_agent MAX_SCENE "u" [⟨some false, "hi", none⟩]
        [(none, some PROMPT_START)] demoOC
      = .ok [⟨[(none, some PROMPT_START), (some "u", none)], demoOC⟩,
             ⟨[(none, some PROMPT_START), (some "u", some "\nhi")], demoOC⟩,
             ⟨[(none, some PROMPT_START), (some "u", some "\nhi")], demoOC⟩] := by
  rfl

theorem runFrames_length (ms : Nat) (ui : String) (frames : List Frame) :
    ∀ (chat : List ChatPair) (oc : List Comp) (resp : String)
      (snaps : List Snapshot) (chatF : List ChatPair) (ocF : List Comp)
      (respF : String),
      runFrames ms ui frames chat oc resp = .ok (snaps, chatF, ocF, respF) →
      snaps.length = frames.length := by
  induction frames with
  | nil =>
      intro chat oc resp snaps chatF ocF respF h
      cases h
      rfl
  | cons f rest ih =>
      intro chat oc resp snaps chatF ocF respF h
      simp only [runFrames] at h
      split at h
      · cases h
      · split at h
        · cases h
        · cases h
          simp only [List.length_cons]
          congr 1
          exact ih _ _ _ _ _ _ _ (by assumption)

/-- C8 (amended): a successful turn emits `frames.length + 2` snapshots:
one initial snapshot showing the pending user message with empty agent
text, then one snapshot per frame in frame order, then one final snapshot
repeating the last state after the loop.  The claim's count of exactly one
snapshot per frame after the initial one is off by the trailing
snapshot. -/
theorem c8_snapshot_count (ms : Nat) (ui : String) (frames : List Frame)
    (chat0 : List ChatPair) (oc0 : List Comp) (snaps : List Snapshot)
    (h : story_agent ms ui frames chat0 oc0 = .ok snaps) :
    snaps.length = frames.length + 2 ∧
    snaps.head? = some ⟨chat0 ++ [(some ui, none)], oc0⟩ := by
  simp only [story_agent] at h
  split at h
  · cases h
  · cases h
    constructor
    · simp only [List.length_cons, List.length_append, List.length_cons,
        List.length_nil]
      have := runFrames_length ms ui frames _ _ _ _ _ _ _ (by assumption)
      omega
    · rfl

theorem c8_snapshot_count_witness :
    ([⟨[(none, some PROMPT_START), (some "w", none)], demoOC⟩,
      ⟨[(none, some PROMPT_START), (some "w", some "")], demoOC⟩]
        : List Snapshot).length = ([] : List Frame).length + 2 ∧
    ([⟨[(none, some PROMPT_START), (some "w", none)], demoOC⟩,
      ⟨[(none, some PROMPT_START), (some "w", some "")], demoOC⟩]
        : List Snapshot).head?
      = some ⟨[(none, some PROMPT_START)] ++ [(some "w", none)], demoOC⟩ :=
  c8_snapshot_count MAX_SCENE "w" [] [(none, some PROMPT_START)] demoOC _
    (by rfl)

/-- C8 counterexample: a one-frame turn emits three snapshots, not the two
(one before any frame plus one per frame) that the claim prescribes: the
loop always re-emits a final snapshot after the last frame. -/
theorem c8_counterexample :
    story_agent MAX_SCENE "hello" [⟨some true, "ok", none⟩]
        [(none, some PROMPT_START)] demoOC
      = .ok
        [⟨[(none, some PROMPT_START), (some "hello", none)], demoOC⟩,
         ⟨[(none, some PROMPT_START), (some "hello", some "\nok")], demoOC⟩,
         ⟨[(none, some PROMPT_START), (some "hello", some "\nok")], demoOC⟩] := by
  rfl

theorem startsWith_append (p : List Char) :
    ∀ u w : List Char, startsWith p u = true → startsWith p (u ++ w) = true := by
  induction p with
  | nil =>
      intro u w _
      rfl
  | cons a ps ih =>
      intro u w h
      cases u with
      | nil =>
          simp only [startsWith] at h
          exact Bool.noConfusion h
      | cons c cs =>
          simp only [startsWith, Bool.and_eq_true] at h
          simp only [List.cons_append, startsWith, Bool.and_eq_true]
          exact ⟨h.1, ih cs w h.2⟩

theorem occursIn_nil_pat : ∀ l : List Char, occursIn [] l = true := by
  intro l
  cases l with
  | nil => rfl
  | cons c cs => simp only [occursIn, startsWith, Bool.true_or]

theorem occursIn_append_right (pat : List Char) :
    ∀ u t : List Char, occursIn pat t = true → occursIn pat (u ++ t) = true := by
  intro u
  induction u with
  | nil =>
      intro t h
      exact h
  | cons c cs ih =>
      intro t h
      simp only [List.cons_append, occursIn, Bool.or_eq_true]
      exact Or.inr (ih t h)

theorem occursIn_append_left (pat : List Char) :
    ∀ s v : List Char, occursIn pat s = true → occursIn pat (s ++ v) = true := by
  intro s
  induction s with
  | nil =>
      intro v h
      cases pat with
      | nil => exact occursIn_nil_pat v
      | cons a ps =>
          simp only [occursIn, startsWith] at h
          exact Bool.noConfusion h
  | cons c cs ih =>
      intro v h
      simp only [occursIn, Bool.or_eq_true] at h
      simp only [List.cons_append, occursIn, Bool.or_eq_true]
      cases h with
      | inl h => exact Or.inl (startsWith_append pat (c :: cs) v h)
      | inr h => exact Or.inr (ih v h)

theorem occursIn_slice (pat u s v : List Char)
    (h : occursIn pat s = true) : occursIn pat (u ++ (s ++ v)) = true :=
  occursIn_append_right pat u (s ++ v) (occursIn_append_left pat s v h)

theorem beforeFirst_append_drop (sep : List Char) :
    ∀ l : List Char,
      l = beforeFirst sep l ++ l.drop (beforeFirst sep l).length := by
  intro l
  induction l with
  | nil => rfl
  | cons c rest ih =>
      by_cases hsw : startsWith sep (c :: rest) = true
      · simp only [beforeFirst, hsw, if_true, List.length_nil, List.drop_zero,
          List.nil_append]
      · simp only [beforeFirst, hsw, if_false, List.length_cons,
          List.drop_succ_cons, List.cons_append]
        exact congrArg (c :: ·) ih

theorem occursIn_drop_startsWith (sep : List Char) :
    ∀ l : List Char, occursIn sep l = true →
      startsWith sep (l.drop (beforeFirst sep l).length) = true := by
  intro l
  induction l with
  | nil =>
      intro h
      exact h
  | cons c rest ih =>
      intro h
      by_cases hsw : startsWith sep (c :: rest) = true
      · simp only [beforeFirst, hsw, if_true, List.length_nil, List.drop_zero]
      · simp only [occursIn, Bool.or_eq_true] at h
        simp only [beforeFirst, hsw, if_false, List.length_cons,
          List.drop_succ_cons]
        cases h with
        | inl h => exact absurd h hsw
        | inr h => exact ih h

theorem beforeFirst_no_marker (sep : List Char) (hsep : sep ≠ []) :
    ∀ l : List Char, occursIn sep (beforeFirst sep l) = false := by
  have hnil : occursIn sep [] = false := by
    cases sep with
    | nil => exact absurd rfl hsep
    | cons a ps => rfl
  intro l
  induction l with
  | nil => exact hnil
  | cons c rest ih =>
      by_cases hsw : startsWith sep (c :: rest) = true
      · simp only [beforeFirst, hsw, if_true]
        exact hnil
      · simp only [beforeFirst, hsw, if_false, occursIn]
        have h1 : startsWith sep (c :: beforeFirst sep rest) = false := by
          cases hq : startsWith sep (c :: beforeFirst sep rest) with
          | false => rfl
          | true =>
              exfalso
              have h2 := startsWith_append sep (c :: beforeFirst sep rest)
                (rest.drop (beforeFirst sep rest).length) hq
              rw [List.cons_append, ← beforeFirst_append_drop sep rest] at h2
              exact hsw h2
        rw [h1, ih]
        rfl

theorem occursIn_stripChars (sep l : List Char)
    (h : occursIn sep (stripChars l) = true) : occursIn sep l = true := by
  have hm : l.dropWhile Char.isWhitespace
      = stripChars l
        ++ ((l.dropWhile Char.isWhitespace).reverse.takeWhile
            Char.isWhitespace).reverse := by
    have h2 := List.takeWhile_append_dropWhile Char.isWhitespace
      (l.dropWhile Char.isWhitespace).reverse
    have h3 := congrArg List.reverse h2
    rw [List.reverse_append, List.reverse_reverse] at h3
    exact h3.symm
  have hl := (List.takeWhile_append_dropWhile Char.isWhitespace l).symm
  rw [hm] at hl
  rw [hl]
  exact occursIn_slice sep _ _ _ h

/-- C10: for every frame, the text used as the frame's narrative fragment
never contains the marker, and on a frame without an exec result it is
exactly the stripped portion of the frame's LLM text strictly before the
first occurrence of the marker: that portion is an initial segment of the
text, and the discarded remainder begins with the marker whenever the
marker occurs at all. -/
theorem c10_text_cut_at_user_marker (ms : Nat) (f : Frame)
    (oc oc1 : List Comp) (t : String)
    (h : processFrame ms f oc = .ok (oc1, t)) :
    (f.exec_result = none →
      oc1 = oc ∧ t = pyStrip (beforeUser f.llm_text)) ∧
    f.llm_text.data
      = (beforeUser f.llm_text).data
        ++ f.llm_text.data.drop (beforeUser f.llm_text).data.length ∧
    (occursIn userMarker.data f.llm_text.data = true →
      startsWith userMarker.data
        (f.llm_text.data.drop (beforeUser f.llm_text).data.length) = true) ∧
    occursIn userMarker.data t.data = false := by
  refine ⟨?_, beforeFirst_append_drop userMarker.data f.llm_text.data,
    occursIn_drop_startsWith userMarker.data f.llm_text.data, ?_⟩
  · intro hex
    simp only [processFrame, hex] at h
    cases h
    exact ⟨rfl, rfl⟩
  · cases hex : f.exec_result with
    | none =>
        simp only [processFrame, hex] at h
        cases h
        cases hq : occursIn userMarker.data
            (pyStrip (beforeUser f.llm_text)).data with
        | false => rfl
        | true =>
            exfalso
            have h2 := occursIn_stripChars userMarker.data
              (beforeFirst userMarker.data f.llm_text.data) hq
            rw [beforeFirst_no_marker userMarker.data (by decide)
              f.llm_text.data] at h2
            cases h2
    | some er =>
        simp only [processFrame, hex] at h
        split at h
        · cases h
        · cases h
          rfl

theorem c10_text_cut_at_user_marker_witness :
    (demoOC = demoOC ∧
      "hello" = pyStrip (beforeUser "hello <|user|> secret")) ∧
    occursIn userMarker.data "hello".data = false := by
  have h := c10_text_cut_at_user_marker 4
    ⟨some true, "hello <|user|> secret", none⟩ demoOC demoOC "hello" (by rfl)
  exact ⟨h.1 rfl, h.2.2.2⟩

theorem setLast_concat (l : List ChatPair) (x v : ChatPair) :
    setLast (l ++ [x]) v = l ++ [v] := by
  unfold setLast
  rw [if_neg (by simp), List.dropLast_concat]

theorem resp_three (x1 x3 : String) :
    appendResponse (appendResponse (appendResponse "" x1) " ") x3
      = "\n" ++ x1 ++ "\n \n" ++ x3 := by
  have h : "\n" ++ (" " ++ ("\n" ++ x3)) = "\n \n" ++ x3 := by
    rw [← String.append_assoc, ← String.append_assoc]
    rfl
  simp only [appendResponse, String.empty_append, String.append_assoc]
  rw [h]

/-- C4 (amended): for a turn delivered as a narrative frame, a completed
`image_generation` exec frame for scene `i`, and a closing narrative frame,
the final agent text is the frames' stripped texts each prefixed by a
newline, with the exec frame contributing a single space — that is,
`"\n" ++ n1 ++ "\n \n" ++ n3`, not the claim's in-place single-space
splice — and both the image slot at position `i + 1` and the caption slot
at position `i + max_scene + 1` are written. -/
theorem c4_roundtrip_turn (ms : Nat) (ui n1 t2 n3 s img cap : String)
    (i : Nat) (f1 f2 f3 : Option Bool) (chat : List ChatPair)
    (oc : List Comp) (hlen : oc.length = 2 * ms + 1)
    (hp : pyInt s = some (i : Int)) (hi : i < ms) :
    lastAgentText (story_agent ms ui
        [⟨f1, n1, none⟩, ⟨f2, t2, some (.imageGen s img cap)⟩, ⟨f3, n3, none⟩]
        chat oc)
      = some ("\n" ++ pyStrip (beforeUser n1) ++ "\n \n"
          ++ pyStrip (beforeUser n3)) ∧
    lastComps (story_agent ms ui
        [⟨f1, n1, none⟩, ⟨f2, t2, some (.imageGen s img cap)⟩, ⟨f3, n3, none⟩]
        chat oc)
      = some ((oc.set (i + 1) (some img)).set (i + ms + 1) (some cap)) := by
  have hrun : story_agent ms ui
      [⟨f1, n1, none⟩, ⟨f2, t2, some (.imageGen s img cap)⟩, ⟨f3, n3, none⟩]
      chat oc
      = .ok
        [⟨chat ++ [(some ui, none)], oc⟩,
         ⟨chat ++ [(some ui,
            some (appendResponse "" (pyStrip (beforeUser n1))))], oc⟩,
         ⟨chat ++ [(some ui,
            some (appendResponse
              (appendResponse "" (pyStrip (beforeUser n1))) " "))],
          (oc.set (i + 1) (some img)).set (i + ms + 1) (some cap)⟩,
         ⟨chat ++ [(some ui,
            some (appendResponse (appendResponse
              (appendResponse "" (pyStrip (beforeUser n1))) " ")
              (pyStrip (beforeUser n3))))],
          (oc.set (i + 1) (some img)).set (i + ms + 1) (some cap)⟩,
         ⟨chat ++ [(some ui,
            some (appendResponse (appendResponse
              (appendResponse "" (pyStrip (beforeUser n1))) " ")
              (pyStrip (beforeUser n3))))],
          (oc.set (i + 1) (some img)).set (i + ms + 1) (some cap)⟩] := by
    simp only [story_agent, runFrames, processFrame,
      update_component_imageGen_ok ms s img cap i oc hlen hp hi,
      setLast_concat, List.cons_append, List.nil_append]
  rw [hrun]
  constructor
  · simp only [lastAgentText, List.cons_append, List.nil_append,
      List.getLast?_cons_cons, List.getLast?_singleton, Option.some_bind,
      List.getLast?_append, Option.or_some, resp_three]
  · simp only [lastComps, List.getLast?_cons_cons, List.getLast?_singleton,
      Option.map_some']

theorem c4_roundtrip_turn_witness :
    lastAgentText (story_agent 4 "u" c4frames [(none, some PROMPT_START)]
        demoOC)
      = some ("\n" ++ pyStrip (beforeUser "Scene text.") ++ "\n \n"
          ++ pyStrip (beforeUser "more text")) ∧
    lastComps (story_agent 4 "u" c4frames [(none, some PROMPT_START)] demoOC)
      = some ((demoOC.set (1 + 1) (some "IMG")).set (1 + 4 + 1)
          (some "CAP")) :=
  c4_roundtrip_turn 4 "u" "Scene text." "" "more text" "1" "IMG" "CAP" 1
    (some false) (some false) (some true) [(none, some PROMPT_START)] demoOC
    (by rfl) (by rfl) (by decide)

/-- C4 counterexample: on the concrete round-trip scenario the final agent
text is `"\nScene text.\n \nmore text"`, not the claimed
`"Scene text.   more text"`, and the caption slot at position 6 is also
written (so not all slots other than the image slot are unchanged). -/
theorem c4_counterexample :
    lastAgentText (story_agent MAX_SCENE "u" c4frames
        [(none, some PROMPT_START)] demoOC)
      = some "\nScene text.\n \nmore text" ∧
    ("\nScene text.\n \nmore text" : String) ≠ "Scene text.   more text" ∧
    lastComps (story_agent MAX_SCENE "u" c4frames
        [(none, some PROMPT_START)] demoOC)
      = some ((demoOC.set 2 (some "IMG")).set 6 (some "CAP")) ∧
    (demoOC.set 2 (some "IMG")).set 6 (some "CAP") ≠ demoOC := by
  exact ⟨rfl, by decide, rfl, by decide⟩

end StoryAgent
